import Mathlib

/-!
Verification development for the ioBroker Hailo Libero adapter.

The definitions below are a shallow embedding of the device-connectivity
layer of the repository:
* `src/lib/hailoClient.js` — the `HailoClient` class (session handling,
  command dispatch, HTML extraction);
* `src/main.js` (and its variant) — the `HailoLibero` adapter class
  (polling loop, reconnect scheduling).

Stateful JavaScript methods become explicit state-passing functions.  The
outcome of each `axios` request is passed in as data: the promise either
resolves with a response (`delivered`), rejects with an error that carries
the response (`errResponse` — this is how `axios` reports a response whose
status fails `validateStatus`, and, on the axios builds the author coded
against, a redirect blocked by `maxRedirects: 0`), or rejects without a
response (`netErr`, a network-level failure).  Uncontested `axios` facts
used by concrete counterexamples: a response whose status satisfies the
request's `validateStatus` predicate resolves the promise, so a status-200
login response is always `delivered`.
-/

/-- An HTTP response as the client observes it: status code, the
`location` header, the `set-cookie` header array, and the textual body. -/
structure HttpResponse where
  status : Nat
  location : Option String
  setCookie : List String
  body : String
  deriving Repr, DecidableEq

/-- How the `axios` promise for the `POST /login` request settles
(`hailoClient.js` lines 66-71): resolve with a response, reject with an
error carrying a response, or reject with no response at all. -/
inductive LoginOutcome where
  | delivered (r : HttpResponse)
  | errResponse (r : HttpResponse)
  | netErr
  deriving Repr, DecidableEq

/-- The mutable session fields of `HailoClient`
(`this.authenticated`, `this.sessionCookie`). -/
structure ClientState where
  authenticated : Bool
  sessionCookie : Option String
  deriving Repr, DecidableEq

/-- Constructor state: `authenticated = false`, `sessionCookie = null`
(`hailoClient.js` lines 22-23). -/
def initClient : ClientState := ⟨false, none⟩

/-- Cookie capture of `authenticate` (`hailoClient.js` lines 83-85): the
cookie cache is overwritten only when `response.headers["set-cookie"]` is
present and its first element is truthy (a nonempty string). -/
def captureCookie (s : ClientState) (r : HttpResponse) : Option String :=
  match r.setCookie.head? with
  | some c => if c = "" then s.sessionCookie else some c
  | none => s.sessionCookie

/-- `HailoClient.authenticate` (`hailoClient.js` lines 58-100) as a
function of the login request's outcome.  A delivered (resolved) response
runs the try branch: "Authentication did not redirect; treating as
failure".  An error carrying a response runs the catch branch: success
exactly when the status is 301 and the `location` header is `/`, in which
case a cookie is captured if present and `authenticated` is set; every
other outcome sets `authenticated := false` and returns `false`.  The
cookie cache is never written on a failure path. -/
def authenticateStep (s : ClientState) (o : LoginOutcome) : ClientState × Bool :=
  match o with
  | .delivered _ => (⟨false, s.sessionCookie⟩, false)
  | .errResponse r =>
    if r.status = 301 ∧ r.location = some "/" then
      (⟨true, captureCookie s r⟩, true)
    else
      (⟨false, s.sessionCookie⟩, false)
  | .netErr => (⟨false, s.sessionCookie⟩, false)

/-- How the `GET /` probe of `checkAuth` settles: delivered response
(status accepted by `validateStatus`, namely 200-399) or any failure
(rejected status or network error, both ending in the catch branch). -/
inductive ProbeOutcome where
  | delivered (r : HttpResponse)
  | failed
  deriving Repr, DecidableEq

/-- `HailoClient.checkAuth` (`hailoClient.js` lines 114-134): probes `/`;
a 200 response marks the session authenticated and returns `true`; a 301
response clears the `authenticated` flag (but not the cookie) and returns
`false`; any other delivered status returns `false` with the state
untouched; the catch branch (network failure) returns `false` with the
state untouched. -/
def checkAuthStep (s : ClientState) (o : ProbeOutcome) : ClientState × Bool :=
  match o with
  | .delivered r =>
    if r.status = 200 then (⟨true, s.sessionCookie⟩, true)
    else if r.status = 301 then (⟨false, s.sessionCookie⟩, false)
    else (s, false)
  | .failed => (s, false)

/-- `HailoClient.ensureAuth` (`hailoClient.js` lines 46-52) with request
accounting: first `checkAuth` (one `GET /` probe); if that returns `true`,
return `true` with no login traffic; otherwise run `authenticate` (one
`POST /login`).  The result is (state, returned boolean, number of probe
requests issued, number of login requests issued). -/
def ensureAuthRun (s : ClientState) (p : ProbeOutcome) (l : LoginOutcome) :
    ClientState × Bool × Nat × Nat :=
  let c := checkAuthStep s p
  if c.2 then (c.1, true, 1, 0)
  else
    let a := authenticateStep c.1 l
    (a.1, a.2, 1, 1)

/-- The value of `response.data` for the `GET /push` request: a string, or
something else (JSON, buffer, ...), which the code coerces to `""`. -/
inductive JsData where
  | str (s : String)
  | nonStr
  deriving Repr, DecidableEq

/-- The coercion `typeof response.data === "string" ? response.data : ""`
(`hailoClient.js` line 197). -/
def dataAsString : JsData → String
  | .str s => s
  | .nonStr => ""

/-- JavaScript `String.prototype.trim`: drop leading and trailing
whitespace characters. -/
def jsTrim (s : String) : String :=
  String.mk (((s.toList.dropWhile Char.isWhitespace).reverse.dropWhile
    Char.isWhitespace).reverse)

/-- Response to the `GET /push` actuation request. -/
structure PushResponse where
  status : Nat
  data : JsData
  deriving Repr, DecidableEq

/-- How the `GET /push` request settles: delivered response or any thrown
error (the catch branch of `openLid`). -/
inductive PushOutcome where
  | delivered (r : PushResponse)
  | failed
  deriving Repr, DecidableEq

/-- `HailoClient.openLid` (`hailoClient.js` lines 188-209): run
`ensureAuth` (its boolean result is ignored), then issue `GET /push`;
return `true` exactly when the response status is 200 and the trimmed
string body is `"OK"`; any other delivered response, and any thrown
error, returns `false`. -/
def openLidRun (s : ClientState) (p : ProbeOutcome) (l : LoginOutcome)
    (push : PushOutcome) : ClientState × Bool :=
  let e := ensureAuthRun s p l
  match push with
  | .delivered r => (e.1, r.status == 200 && jsTrim (dataAsString r.data) == "OK")
  | .failed => (e.1, false)

/-- The `led` / `pwr` / `dist` argument of `writeSettings`
(`hailoClient.js` line 369): each field optional. -/
structure WriteSettingsArgs where
  led : Option Int
  pwr : Option Int
  dist : Option Int
  deriving Repr, DecidableEq

/-- The `URLSearchParams` body built by `writeSettings` (`hailoClient.js`
lines 377-380): one `(key, value)` pair per defined field. -/
def settingsParams (a : WriteSettingsArgs) : List (String × String) :=
  (match a.led with | some v => [("led", toString v)] | none => []) ++
  (match a.pwr with | some v => [("pwr", toString v)] | none => []) ++
  (match a.dist with | some v => [("dist", toString v)] | none => [])

/-- How the `POST /settings` (or `/sensitivity`, `/force`) request
settles: a delivered response with some status, or a thrown error. -/
inductive PostOutcome where
  | delivered (status : Nat)
  | failed
  deriving Repr, DecidableEq

/-- Observable result of one `writeSettings` call: final client state,
returned boolean, number of `GET /` probes, number of `POST /login`
requests, and the list of bodies posted to `/settings`. -/
structure WriteResult where
  state : ClientState
  ok : Bool
  probes : Nat
  logins : Nat
  posted : List (List (String × String))
  deriving Repr, DecidableEq

/-- `HailoClient.writeSettings` (`hailoClient.js` lines 369-396): first
`await this.ensureAuth()` (which issues its probe and possibly a login
request), THEN check `dryRun` — a dry run returns `true` having posted
nothing to `/settings`; otherwise post the params and return `true`
exactly on a delivered status 200 (the catch branch returns `false`). -/
def writeSettingsRun (s : ClientState) (p : ProbeOutcome) (l : LoginOutcome)
    (a : WriteSettingsArgs) (dryRun : Bool) (post : PostOutcome) : WriteResult :=
  let e := ensureAuthRun s p l
  if dryRun then ⟨e.1, true, e.2.2.1, e.2.2.2, []⟩
  else
    match post with
    | .delivered st => ⟨e.1, st == 200, e.2.2.1, e.2.2.2, [settingsParams a]⟩
    | .failed => ⟨e.1, false, e.2.2.1, e.2.2.2, [settingsParams a]⟩

/-- `HailoClient.setSensitivity` (`hailoClient.js` lines 455-481): a value
outside `[0, 100]` returns `false` before any request is issued; an
in-range value posts to `/sensitivity` and returns `true` exactly on a
delivered status 200.  Result is (returned boolean, number of requests
issued). -/
def setSensitivityRun (v : Int) (post : PostOutcome) : Bool × Nat :=
  if v < 0 ∨ v > 100 then (false, 0)
  else
    match post with
    | .delivered st => (st == 200, 1)
    | .failed => (false, 1)

/-- `HailoClient.setEjectionForce` (`hailoClient.js` lines 488-514): same
shape as `setSensitivity`, posting to `/force`. -/
def setEjectionForceRun (v : Int) (post : PostOutcome) : Bool × Nat :=
  if v < 0 ∨ v > 100 then (false, 0)
  else
    match post with
    | .delivered st => (st == 200, 1)
    | .failed => (false, 1)

/-!
The connection supervisor (`HailoLibero` in `src/main.js` and the variant
`src/unnamed/part_001`): the polling loop of `startPolling` and the timer
bookkeeping of `scheduleReconnect` / `onUnload`.
-/

/-- The adapter fields the polling loop reads and the fetches it starts:
`this.isConnected`, plus the number of settings fetches currently in
flight.  JavaScript's `setInterval` invokes its callback at every interval
elapse regardless of whether a previous (async) invocation is still
awaiting, so each tick is one invocation of the callback of
`startPolling`. -/
structure PollState where
  isConnected : Bool
  outstanding : Nat
  deriving Repr, DecidableEq

/-- One poll tick: the `setInterval` callback of `startPolling`
(`main.js` lines 275-279, `part_001` lines 333-337).  The callback is
`if (this.isConnected) await this.updateDeviceStatus();` — it starts a
settings fetch whenever `isConnected`, with no check of whether a
previous fetch is still outstanding. -/
def pollTick (s : PollState) : PollState :=
  if s.isConnected then ⟨s.isConnected, s.outstanding + 1⟩ else s

/-- Completion of one settings fetch. -/
def fetchDone (s : PollState) : PollState :=
  ⟨s.isConnected, s.outstanding - 1⟩

/-- `n` consecutive poll ticks with no intervening fetch completion
(a slow fetch that never finishes within the window). -/
def runTicks : Nat → PollState → PollState
  | 0, s => s
  | n + 1, s => runTicks n (pollTick s)

/-- Events touching the reconnect timer of the supervisor: a failed
connection attempt calling `scheduleReconnect`, the runtime firing a
timer with a given id, and `onUnload`. -/
inductive SupEvent where
  | schedule
  | fire (id : Nat)
  | unload
  deriving Repr, DecidableEq

/-- The supervisor's reconnect-timer bookkeeping: the stored handle
`this.reconnectTimeout` (possibly stale after its timer fired), the
runtime's outstanding timers as (id, delay-ms) pairs, and a fresh-id
counter. -/
structure SupState where
  reconnectTimeout : Option Nat
  pending : List (Nat × Nat)
  nextId : Nat
  deriving Repr, DecidableEq

/-- Adapter constructor: `this.reconnectTimeout = null`, no timers. -/
def supInit : SupState := ⟨none, [], 0⟩

/-- One supervisor event.  `schedule` is `scheduleReconnect` (`main.js`
lines 285-296, `part_001` lines 343-354): if a handle is stored,
`clearTimeout` it (removing that timer from the runtime if still
outstanding; a no-op if it already fired), then store a new timer with
delay 60000 ms.  `fire id` is the runtime completing timer `id` (the
handle field is left stale, as in JavaScript).  `unload` is `onUnload`
(`main.js` lines 313-316): `clearTimeout` the stored handle and null it. -/
def supStep (s : SupState) : SupEvent → SupState
  | .schedule =>
    let p :=
      match s.reconnectTimeout with
      | some id => s.pending.filter (fun t => t.1 != id)
      | none => s.pending
    ⟨some s.nextId, p ++ [(s.nextId, 60000)], s.nextId + 1⟩
  | .fire id => ⟨s.reconnectTimeout, s.pending.filter (fun t => t.1 != id), s.nextId⟩
  | .unload =>
    match s.reconnectTimeout with
    | some id => ⟨none, s.pending.filter (fun t => t.1 != id), s.nextId⟩
    | none => s

/-- Run a sequence of supervisor events from the initial state. -/
def supRun (evs : List SupEvent) : SupState :=
  evs.foldl supStep supInit

/-!
The HTML extractor `HailoClient.parseSettingsAndInfoFromHtml`
(`hailoClient.js` lines 284-344).  `cheerio.load` parses any input string
(including malformed markup) into a DOM tree without throwing, so the
embedding works on the resulting tree.  Nodes carry their tag, attribute
list and children; `nextSibling` is the following entry of the parent's
child list.  In `domhandler` only data nodes (text, comments) define
`nodeValue`; on an element `nodeValue` is `undefined`, so the
`nodeValue.trim()` inside `getNextText` throws a `TypeError` when a
marker span's next sibling is an element — the embedding returns
`Except.error` there. -/
mutual
inductive DomNode where
  | element (tag : String) (attrs : List (String × String)) (children : DomForest)
  | textNode (s : String)
  | commentNode (s : String)
inductive DomForest where
  | nil
  | cons (n : DomNode) (rest : DomForest)
end

/-- Build a forest from a list of nodes. -/
def forestOf : List DomNode → DomForest
  | [] => .nil
  | n :: r => .cons n (forestOf r)

/-- The first node of a forest, if any. -/
def forestHead : DomForest → Option DomNode
  | .nil => none
  | .cons n _ => some n

/-- Attribute lookup (`cheerio`'s `attr`): first binding wins, `none` for
a missing attribute (JavaScript `undefined`). -/
def attrOf (attrs : List (String × String)) (k : String) : Option String :=
  (attrs.find? (fun q => q.1 = k)).map (fun q => q.2)

/-- Does the `class` attribute contain the token `button`?  Used by the
selector `input:not(.button)`. -/
def hasClassButton (attrs : List (String × String)) : Bool :=
  match attrOf attrs "class" with
  | some c => (c.splitOn " ").contains "button"
  | none => false

/-- All `input` elements without class `button` in document order, as
their attribute lists (the selector `input:not(.button)` matched by
`$("input:not(.button)").each`, `hailoClient.js` line 290). -/
def collectInputs : DomForest → List (List (String × String))
  | .nil => []
  | .cons (.element tag attrs children) rest =>
    (if tag = "input" ∧ ¬hasClassButton attrs then [attrs] else []) ++
      collectInputs children ++ collectInputs rest
  | .cons (.textNode _) rest => collectInputs rest
  | .cons (.commentNode _) rest => collectInputs rest

/-- JavaScript `parseInt(x, 10)`: skip leading whitespace, optional sign,
then the maximal run of decimal digits; `NaN` (modelled `none`) when the
argument is `undefined` or no digit follows. -/
def parseIntJs : Option String → Option Int
  | none => none
  | some s =>
    let cs := s.toList.dropWhile Char.isWhitespace
    let signed : Int × List Char :=
      match cs with
      | '-' :: r => (-1, r)
      | '+' :: r => (1, r)
      | r => (1, r)
    let ds := signed.2.takeWhile Char.isDigit
    if ds.isEmpty then none
    else
      some (signed.1 *
        (Int.ofNat (ds.foldl (fun acc c => acc * 10 + (c.toNat - '0'.toNat)) 0)))

/-- A parsed settings value: a raw (possibly `undefined`) string, the
normalized boolean of the `ipconf` field, or a range triple. -/
inductive SettingVal where
  | rawStr (s : Option String)
  | boolv (b : Bool)
  | range (value lo hi : Option Int)
  deriving Repr, DecidableEq

/-- The per-input body of the `each` loop (`hailoClient.js` lines
290-316): skip unselected radio buttons; skip inputs whose `name` is
missing or empty (falsy); `range` inputs become `{value, min, max}`
triples via `parseInt`; `ipconf` is normalized to `value === "1"`; every
other input keeps its raw `value` attribute. -/
def inputSetting (attrs : List (String × String)) : Option (String × SettingVal) :=
  let ty := attrOf attrs "type"
  let checked := (attrOf attrs "checked").isSome
  if ty = some "radio" ∧ ¬checked then none
  else
    match attrOf attrs "name" with
    | none => none
    | some nm =>
      if nm = "" then none
      else if ty = some "range" then
        some (nm, .range (parseIntJs (attrOf attrs "value"))
          (parseIntJs (attrOf attrs "min")) (parseIntJs (attrOf attrs "max")))
      else if nm = "ipconf" then
        some (nm, .boolv (attrOf attrs "value" == some "1"))
      else
        some (nm, .rawStr (attrOf attrs "value"))

/-- JavaScript object assignment `settings[name] = v`: replace an
existing binding, else append. -/
def upsert (m : List (String × SettingVal)) (k : String) (v : SettingVal) :
    List (String × SettingVal) :=
  if m.any (fun q => q.1 = k) then
    m.map (fun q => if q.1 = k then (k, v) else q)
  else m ++ [(k, v)]

/-- The `settings` object built by the `each` loop over all matched
inputs. -/
def parseSettings (doc : DomForest) : List (String × SettingVal) :=
  (collectInputs doc).foldl
    (fun m attrs =>
      match inputSetting attrs with
      | some kv => upsert m kv.1 kv.2
      | none => m)
    []

/-- The first `p` element of the document in document order
(`$("p").first()`). -/
def firstP : DomForest → Option DomNode
  | .nil => none
  | .cons (.element tag attrs children) rest =>
    if tag = "p" then some (.element tag attrs children)
    else
      match firstP children with
      | some q => some q
      | none => firstP rest
  | .cons (.textNode _) rest => firstP rest
  | .cons (.commentNode _) rest => firstP rest

/-- All `span` descendants of a node list in document order, each paired
with its `nextSibling` (the following entry of its parent's child list,
which may be a text, comment or element node, or absent). -/
def spansWithSib : DomForest → List (DomNode × Option DomNode)
  | .nil => []
  | .cons (.element tag attrs children) rest =>
    (if tag = "span" then [(.element tag attrs children, forestHead rest)] else []) ++
      spansWithSib children ++ spansWithSib rest
  | .cons (.textNode _) rest => spansWithSib rest
  | .cons (.commentNode _) rest => spansWithSib rest

/-- `p.find("span")` for the first `p` element of the document, paired
with each span's `nextSibling`. -/
def infoSpans (doc : DomForest) : List (DomNode × Option DomNode) :=
  match firstP doc with
  | some (.element _ _ children) => spansWithSib children
  | _ => []

/-- The string pipeline of `getNextText` (`hailoClient.js` line 327):
`nodeValue.trim().replace(/^:/, "").trim()`. -/
def trimColonText (s : String) : String :=
  let t := jsTrim s
  let u :=
    match t.toList with
    | ':' :: r => String.mk r
    | _ => t
  jsTrim u

/-- The helper `getNextText` (`hailoClient.js` lines 325-330): `null`
when the span has no next sibling; the trimmed node value when the next
sibling is a data node (text or comment); and a thrown `TypeError`
(modelled as `Except.error`) when the next sibling is an element, whose
`nodeValue` is `undefined`. -/
def getNextText : Option DomNode → Except Unit (Option String)
  | none => .ok none
  | some (.textNode s) => .ok (some (trimColonText s))
  | some (.commentNode s) => .ok (some (trimColonText s))
  | some (.element _ _ _) => .error ()

/-- The info-extraction block (`hailoClient.js` lines 318-341) over the
span list of the first `p`: when at least six spans are present, fields
are read positionally from the text following spans 0, 1, 2, 4 and 5
(span 3 is skipped); with fewer than six spans the info object stays
empty. -/
def parseInfoSpans (l : List (DomNode × Option DomNode)) :
    Except Unit (List (String × Option String)) :=
  match l with
  | s0 :: s1 :: s2 :: _s3 :: s4 :: s5 :: _ => do
    let device ← getNextText s0.2
    let firmware ← getNextText s1.2
    let fstatus ← getNextText s2.2
    let dhcpIp ← getNextText s4.2
    let dhcpSubnet ← getNextText s5.2
    .ok [("device", device), ("firmware", firmware), ("status", fstatus),
      ("dhcp_ip", dhcpIp), ("dhcp_subnet", dhcpSubnet)]
  | _ => .ok []

/-- The info-extraction block applied to the document. -/
def parseInfo (doc : DomForest) : Except Unit (List (String × Option String)) :=
  parseInfoSpans (infoSpans doc)

/-- The parse result: the `settings` and `info` objects. -/
structure ParseResult where
  settings : List (String × SettingVal)
  info : List (String × Option String)
  deriving Repr, DecidableEq

/-- `HailoClient.parseSettingsAndInfoFromHtml` (`hailoClient.js` lines
284-344) on the DOM tree `cheerio.load` produces: the settings scan is
total, and the whole call throws exactly when the info block throws. -/
def parseSettingsAndInfoFromHtml (doc : DomForest) : Except Unit ParseResult :=
  match parseInfo doc with
  | .ok i => .ok ⟨parseSettings doc, i⟩
  | .error e => .error e

/-- Is a span's `nextSibling` harmless for `getNextText` (absent or a
data node carrying a `nodeValue`)? -/
def siblingTextual : Option DomNode → Bool
  | none => true
  | some (.textNode _) => true
  | some (.commentNode _) => true
  | some (.element _ _ _) => false

/-- All marker spans actually dereferenced by the info block have
harmless next siblings (vacuously true when fewer than six spans). -/
def goodSpansList (l : List (DomNode × Option DomNode)) : Bool :=
  match l with
  | s0 :: s1 :: s2 :: _s3 :: s4 :: s5 :: _ =>
    siblingTextual s0.2 && siblingTextual s1.2 && siblingTextual s2.2 &&
      siblingTextual s4.2 && siblingTextual s5.2
  | _ => true

/-- `goodSpansList` applied to the document's marker spans. -/
def goodSpans (doc : DomForest) : Bool :=
  goodSpansList (infoSpans doc)

/-- Shorthand for a span holding one text child. -/
def mkSpan (t : String) : DomNode := .element "span" [] (forestOf [.textNode t])

/-- A device page whose first paragraph holds six adjacent spans with no
text between them (HTML
`<p><span>a</span>...<span>f</span></p>`): each span's `nextSibling` is
the following span element. -/
def sixSpanDoc : DomForest :=
  forestOf [.element "p" []
    (forestOf [mkSpan "a", mkSpan "b", mkSpan "c", mkSpan "d", mkSpan "e", mkSpan "f"])]

/-- A page with one range input and no paragraph at all. -/
def noMarkerDoc : DomForest :=
  forestOf [.element "input"
    [("name", "led"), ("type", "range"), ("value", "5"), ("min", "1"), ("max", "10")]
    .nil]

example : parseSettingsAndInfoFromHtml sixSpanDoc = .error () := rfl

example : parseSettingsAndInfoFromHtml noMarkerDoc =
    .ok ⟨[("led", .range (some 5) (some 1) (some 10))], []⟩ := rfl

example : authenticateStep initClient (.delivered ⟨200, none, ["c=ABC123"], ""⟩) =
    (⟨false, none⟩, false) := by decide

example : authenticateStep initClient (.errResponse ⟨301, some "/", ["c=ABC123"], ""⟩) =
    (⟨true, some "c=ABC123"⟩, true) := by decide

example : jsTrim "OK\n" = "OK" := by decide

example : (openLidRun initClient .failed .netErr (.delivered ⟨200, .str "OK\n"⟩)).2 = true := by
  decide

/-!
Theorems for the claims.
-/

/-- Every branch of `ensureAuth` issues exactly one `GET /` probe. -/
theorem ensureAuthRun_probes (s : ClientState) (p : ProbeOutcome) (l : LoginOutcome) :
    (ensureAuthRun s p l).2.2.1 = 1 := by
  cases hc : (checkAuthStep s p).2 <;> simp [ensureAuthRun, hc]

/-- C1 (counterexample): a simulated login response of status 200
carrying a session cookie resolves the request (its status satisfies
`validateStatus`), so the try branch of `authenticate` runs: the call
returns `false` and leaves the session unauthenticated with no cookie
cached — refuting the claim that a direct 200-with-cookie success leaves
the session authenticated. -/
theorem c1_login200_counterexample :
    authenticateStep initClient
      (.delivered ⟨200, none, ["c=ABC123; Path=/; HttpOnly"], ""⟩) =
    (⟨false, none⟩, false) := by decide

/-- C1 (amended): `authenticate` returns `true` exactly when the login
request settles as an error carrying a 301 response whose `location` is
`/`; in that case, when a nonempty `set-cookie` value is present, it is
cached and the session is marked authenticated.  A delivered response —
in particular any status-200 response, with or without a cookie — is
treated as failure. -/
theorem c1_authenticate_success_iff (s : ClientState) (o : LoginOutcome) :
    ((authenticateStep s o).2 = true ↔
      ∃ r, o = .errResponse r ∧ r.status = 301 ∧ r.location = some "/") ∧
    (∀ r c rest, o = .errResponse r → r.status = 301 → r.location = some "/" →
      r.setCookie = c :: rest → c ≠ "" →
      authenticateStep s o = (⟨true, some c⟩, true)) := by
  constructor
  · constructor
    · intro h
      cases o with
      | delivered r => simp [authenticateStep] at h
      | errResponse r =>
        by_cases hc : r.status = 301 ∧ r.location = some "/"
        · exact ⟨r, rfl, hc.1, hc.2⟩
        · simp [authenticateStep, hc] at h
      | netErr => simp [authenticateStep] at h
    · rintro ⟨r, rfl, h1, h2⟩
      simp [authenticateStep, h1, h2]
  · rintro r c rest rfl h1 h2 h3 hc
    simp [authenticateStep, h1, h2, captureCookie, h3, hc]

/-- C1 (witness): the amended theorem at a concrete successful login. -/
theorem c1_authenticate_success_iff_witness :
    authenticateStep initClient (.errResponse ⟨301, some "/", ["c=ABC123"], ""⟩) =
      (⟨true, some "c=ABC123"⟩, true) :=
  (c1_authenticate_success_iff initClient
      (.errResponse ⟨301, some "/", ["c=ABC123"], ""⟩)).2
    ⟨301, some "/", ["c=ABC123"], ""⟩ "c=ABC123" [] rfl rfl rfl rfl (by decide)

/-- C2 (counterexample): a poll tick that fires while one settings fetch
is still outstanding is not skipped — the callback only checks
`isConnected`, so a second concurrent fetch is started. -/
theorem c2_tick_overlap_counterexample :
    pollTick ⟨true, 1⟩ = ⟨true, 2⟩ := by decide

/-- While connected, `n` poll ticks add `n` started fetches. -/
theorem runTicks_connected (n : Nat) :
    ∀ o : Nat, runTicks n ⟨true, o⟩ = ⟨true, o + n⟩ := by
  induction n with
  | zero => intro o; rfl
  | succ k ih =>
    intro o
    show runTicks k (pollTick ⟨true, o⟩) = _
    rw [show pollTick ⟨true, o⟩ = ⟨true, o + 1⟩ from rfl, ih (o + 1)]
    congr 1
    omega

/-- C2 (amended): the polling callback starts a settings fetch on every
tick on which `isConnected` holds, with no overlap guard: against a fetch
that never completes, `n` consecutive ticks start `n` overlapping
fetches (nothing is skipped or queued). -/
theorem c2_every_tick_fetches (n : Nat) : runTicks n ⟨true, 0⟩ = ⟨true, n⟩ := by
  simpa using runTicks_connected n 0

/-- C3 (counterexample): a concrete `writeSettings` call with
`dryRun = true` returns `true` but issues one `GET /` probe (the
`ensureAuth` call precedes the dry-run check), refuting the claim that
zero network calls are issued. -/
theorem c3_dryrun_probe_counterexample :
    writeSettingsRun initClient (.delivered ⟨200, none, [], ""⟩) .netErr
      ⟨some 7, none, none⟩ true .failed =
    ⟨⟨true, none⟩, true, 1, 0, []⟩ := by decide

/-- C3 (amended): for every state and every request outcome,
`writeSettings` with `dryRun = true` returns `true` and posts nothing to
`/settings`, but always issues the one `GET /` probe of the preceding
`ensureAuth` call (plus a login request when the probe shows the session
unauthenticated). -/
theorem c3_dryrun_no_settings_post (s : ClientState) (p : ProbeOutcome)
    (l : LoginOutcome) (a : WriteSettingsArgs) (post : PostOutcome) :
    (writeSettingsRun s p l a true post).ok = true ∧
    (writeSettingsRun s p l a true post).posted = [] ∧
    (writeSettingsRun s p l a true post).probes = 1 :=
  ⟨rfl, rfl, ensureAuthRun_probes s p l⟩

/-- `getNextText` cannot throw on a harmless sibling. -/
theorem getNextText_ok (o : Option DomNode) (h : siblingTextual o = true) :
    ∃ v, getNextText o = .ok v := by
  cases o with
  | none => exact ⟨none, rfl⟩
  | some n =>
    cases n with
    | element t a c => simp [siblingTextual] at h
    | textNode s => exact ⟨some (trimColonText s), rfl⟩
    | commentNode s => exact ⟨some (trimColonText s), rfl⟩

/-- The info block succeeds on any span list whose dereferenced markers
have harmless siblings, and returns the empty info object when fewer
than six spans are present. -/
theorem parseInfoSpans_ok (l : List (DomNode × Option DomNode))
    (h : goodSpansList l = true) :
    ∃ i, parseInfoSpans l = .ok i ∧ (l.length < 6 → i = []) := by
  rcases l with _ | ⟨s0, _ | ⟨s1, _ | ⟨s2, _ | ⟨s3, _ | ⟨s4, _ | ⟨s5, rest⟩⟩⟩⟩⟩⟩
  · exact ⟨[], rfl, fun _ => rfl⟩
  · exact ⟨[], rfl, fun _ => rfl⟩
  · exact ⟨[], rfl, fun _ => rfl⟩
  · exact ⟨[], rfl, fun _ => rfl⟩
  · exact ⟨[], rfl, fun _ => rfl⟩
  · exact ⟨[], rfl, fun _ => rfl⟩
  · simp only [goodSpansList, Bool.and_eq_true] at h
    obtain ⟨⟨⟨⟨h0, h1⟩, h2⟩, h4⟩, h5⟩ := h
    obtain ⟨v0, hv0⟩ := getNextText_ok _ h0
    obtain ⟨v1, hv1⟩ := getNextText_ok _ h1
    obtain ⟨v2, hv2⟩ := getNextText_ok _ h2
    obtain ⟨v4, hv4⟩ := getNextText_ok _ h4
    obtain ⟨v5, hv5⟩ := getNextText_ok _ h5
    refine ⟨[("device", v0), ("firmware", v1), ("status", v2), ("dhcp_ip", v4),
      ("dhcp_subnet", v5)], ?_, ?_⟩
    · simp [parseInfoSpans, hv0, hv1, hv2, hv4, hv5, Bind.bind, Except.bind]
    · intro hlen
      exfalso
      simp only [List.length_cons] at hlen
      omega

/-- C4 (counterexample): on a page whose first paragraph holds six
adjacent spans with nothing between them (HTML
`<p><span>a</span><span>b</span><span>c</span><span>d</span><span>e</span><span>f</span></p>`),
the first marker span's `nextSibling` is the next span element, whose
`nodeValue` is `undefined`, so `getNextText`'s `nodeValue.trim()` throws
a `TypeError` — refuting the claim that the extractor never throws. -/
theorem c4_parse_throws_counterexample :
    parseSettingsAndInfoFromHtml sixSpanDoc = .error () := rfl

/-- C4 (amended): the extractor does not throw on any page on which each
dereferenced marker span's next sibling is absent or a data node
(in particular on every page with fewer than six spans in its first
paragraph, where the info object is empty); the settings scan itself is
total and its result is always the settings parsed from the input
elements present.  The extractor throws exactly on pages where such a
marker span is immediately followed by an element node. -/
theorem c4_parse_total_on_textual_markers (doc : DomForest)
    (hg : goodSpans doc = true) :
    ∃ i, parseSettingsAndInfoFromHtml doc = .ok ⟨parseSettings doc, i⟩ ∧
      ((infoSpans doc).length < 6 → i = []) := by
  obtain ⟨i, hi, hlen⟩ := parseInfoSpans_ok (infoSpans doc) hg
  exact ⟨i, by simp [parseSettingsAndInfoFromHtml, parseInfo, hi], hlen⟩

/-- C4 (witness): the amended theorem on a concrete page having a range
input and no info markers at all. -/
theorem c4_parse_total_witness :
    ∃ i, parseSettingsAndInfoFromHtml noMarkerDoc =
        .ok ⟨parseSettings noMarkerDoc, i⟩ ∧
      ((infoSpans noMarkerDoc).length < 6 → i = []) :=
  c4_parse_total_on_textual_markers noMarkerDoc rfl

/-- C5: `openLid` returns `true` exactly when the `/push` response has
status 200 and its body, trimmed of surrounding whitespace, equals
`"OK"`; body `"OK\n"` is success, body `"ERROR"` is failure, and a thrown
request error yields `false` rather than an exception. -/
theorem c5_openLid_success_iff :
    (∀ (s : ClientState) (p : ProbeOutcome) (l : LoginOutcome) (st : Nat)
      (body : String),
      ((openLidRun s p l (.delivered ⟨st, .str body⟩)).2 = true ↔
        st = 200 ∧ jsTrim body = "OK")) ∧
    (openLidRun initClient .failed .netErr (.delivered ⟨200, .str "OK\n"⟩)).2 = true ∧
    (openLidRun initClient .failed .netErr (.delivered ⟨200, .str "ERROR"⟩)).2 = false ∧
    (∀ (s : ClientState) (p : ProbeOutcome) (l : LoginOutcome),
      (openLidRun s p l .failed).2 = false) := by
  refine ⟨?_, by decide, by decide, ?_⟩
  · intro s p l st body
    simp [openLidRun, dataAsString]
  · intro s p l
    simp [openLidRun]

/-- C5 (witness): the iff of the claim theorem applied at a concrete
response with surrounding whitespace in the body. -/
theorem c5_openLid_witness :
    (openLidRun initClient .failed .netErr (.delivered ⟨200, .str " OK "⟩)).2 = true :=
  (c5_openLid_success_iff.1 initClient .failed .netErr 200 " OK ").mpr ⟨rfl, by decide⟩

/-- C6 (counterexample): a login outcome carrying the success-indicating
response (301 redirect to `/`) with no `set-cookie` header at all is NOT
treated as a failure: `authenticate` returns `true` and marks the
session authenticated, with the cookie cache left empty — refuting the
claim that a cookieless success response yields `false`. -/
theorem c6_no_cookie_success_counterexample :
    authenticateStep initClient (.errResponse ⟨301, some "/", [], ""⟩) =
      (⟨true, none⟩, true) := by decide

/-- C6 (amended): a success-indicating login response (error-delivered
301 redirect to `/`) that carries no cookie is still treated as success:
`authenticate` returns `true`, marks the session authenticated, and
leaves the cookie cache unchanged; it does not crash. -/
theorem c6_redirect_without_cookie_success (s : ClientState) (r : HttpResponse)
    (h1 : r.status = 301) (h2 : r.location = some "/") (h3 : r.setCookie = []) :
    authenticateStep s (.errResponse r) = (⟨true, s.sessionCookie⟩, true) := by
  simp [authenticateStep, h1, h2, captureCookie, h3]

/-- C6 (witness): the amended theorem at a concrete state holding an old
cookie. -/
theorem c6_redirect_without_cookie_witness :
    authenticateStep ⟨false, some "c=OLD"⟩ (.errResponse ⟨301, some "/", [], ""⟩) =
      (⟨true, some "c=OLD"⟩, true) :=
  c6_redirect_without_cookie_success ⟨false, some "c=OLD"⟩
    ⟨301, some "/", [], ""⟩ rfl rfl rfl

/-- C7 (counterexample): after a failed `authenticate` (network error)
and after `checkAuth` detects a server-side rejection (301 redirect), the
cached session cookie is still present — refuting the claim that the
stored cookie is cleared on every failure or detected rejection. -/
theorem c7_cookie_retained_counterexample :
    authenticateStep ⟨true, some "c=ABC123"⟩ .netErr =
      (⟨false, some "c=ABC123"⟩, false) ∧
    checkAuthStep ⟨true, some "c=ABC123"⟩ (.delivered ⟨301, some "/login", [], ""⟩) =
      (⟨false, some "c=ABC123"⟩, false) := by decide

/-- C7 (amended): on every failed `authenticate` only the `authenticated`
flag is cleared — the cached cookie is retained unchanged — and a
`checkAuth` call that returns `false` (including the redirect-to-login
detection) likewise never touches the cookie cache. -/
theorem c7_failure_keeps_cookie (s : ClientState) (o : LoginOutcome)
    (p : ProbeOutcome) :
    ((authenticateStep s o).2 = false →
      (authenticateStep s o).1.authenticated = false ∧
      (authenticateStep s o).1.sessionCookie = s.sessionCookie) ∧
    ((checkAuthStep s p).2 = false →
      (checkAuthStep s p).1.sessionCookie = s.sessionCookie) := by
  constructor
  · intro h
    cases o with
    | delivered r => simp [authenticateStep]
    | errResponse r =>
      by_cases hc : r.status = 301 ∧ r.location = some "/"
      · simp [authenticateStep, hc] at h
      · simp [authenticateStep, hc]
    | netErr => simp [authenticateStep]
  · intro h
    cases p with
    | delivered r =>
      by_cases h2 : r.status = 200
      · simp [checkAuthStep, h2] at h
      · by_cases h3 : r.status = 301 <;> simp [checkAuthStep, h2, h3]
    | failed => simp [checkAuthStep]

/-- C7 (witness): the amended theorem at a concrete failing login and a
concrete rejecting probe. -/
theorem c7_failure_keeps_cookie_witness :
    (authenticateStep ⟨true, some "c=A"⟩ .netErr).1.authenticated = false ∧
    (authenticateStep ⟨true, some "c=A"⟩ .netErr).1.sessionCookie = some "c=A" ∧
    (checkAuthStep ⟨true, some "c=A"⟩
      (.delivered ⟨301, some "/login", [], ""⟩)).1.sessionCookie = some "c=A" := by
  obtain ⟨h1, h2⟩ := c7_failure_keeps_cookie ⟨true, some "c=A"⟩ .netErr
    (.delivered ⟨301, some "/login", [], ""⟩)
  exact ⟨(h1 (by decide)).1, (h1 (by decide)).2, h2 (by decide)⟩

/-- Each supervisor event preserves the reconnect-timer invariant: at
most one timer outstanding, every outstanding timer is the one the
stored handle names, and every outstanding timer carries the fixed
60000 ms delay. -/
theorem supStep_inv {s : SupState} (hlen : s.pending.length ≤ 1)
    (hmem : ∀ t ∈ s.pending, s.reconnectTimeout = some t.1 ∧ t.2 = 60000)
    (e : SupEvent) :
    (supStep s e).pending.length ≤ 1 ∧
      ∀ t ∈ (supStep s e).pending,
        (supStep s e).reconnectTimeout = some t.1 ∧ t.2 = 60000 := by
  cases e with
  | schedule =>
    have hp :
        (match s.reconnectTimeout with
          | some id => s.pending.filter (fun t => t.1 != id)
          | none => s.pending) = [] := by
      cases hr : s.reconnectTimeout with
      | some id =>
        rw [List.filter_eq_nil_iff]
        intro t ht
        have h1 := (hmem t ht).1
        rw [hr] at h1
        simp only [Option.some.injEq] at h1
        simp only [bne_iff_ne, ne_eq, not_not]
        omega
      | none =>
        cases hq : s.pending with
        | nil => rfl
        | cons t rest =>
          have h1 := (hmem t (by rw [hq]; exact List.mem_cons_self t rest)).1
          rw [hr] at h1
          exact Option.noConfusion h1
    constructor
    · simp [supStep, hp]
    · intro t ht
      simp only [supStep, hp, List.nil_append, List.mem_singleton] at ht
      subst ht
      exact ⟨rfl, rfl⟩
  | fire id =>
    constructor
    · exact le_trans (List.length_filter_le _ _) hlen
    · intro t ht
      exact hmem t (List.mem_of_mem_filter ht)
  | unload =>
    cases hr : s.reconnectTimeout with
    | some id =>
      constructor
      · simp only [supStep, hr]
        exact le_trans (List.length_filter_le _ _) hlen
      · intro t ht
        simp only [supStep, hr, List.mem_filter] at ht
        have h1 := (hmem t ht.1).1
        rw [hr] at h1
        simp only [Option.some.injEq] at h1
        have h2 : t.1 ≠ id := by simpa using ht.2
        exact absurd h1.symm h2
    | none =>
      simp only [supStep, hr]
      refine ⟨hlen, ?_⟩
      intro t ht
      have h1 := (hmem t ht).1
      rw [hr] at h1
      exact Option.noConfusion h1

/-- C8: for every sequence of supervisor events (failed connection
attempts scheduling reconnects, timer firings, unloads), at most one
reconnect timer is outstanding at any instant, and every outstanding
reconnect timer carries the single fixed 60-second delay. -/
theorem c8_single_reconnect_timer (evs : List SupEvent) :
    (supRun evs).pending.length ≤ 1 ∧
      ∀ t ∈ (supRun evs).pending, t.2 = 60000 := by
  have hgen : ∀ evs' : List SupEvent, ∀ s : SupState,
      s.pending.length ≤ 1 →
      (∀ t ∈ s.pending, s.reconnectTimeout = some t.1 ∧ t.2 = 60000) →
      (evs'.foldl supStep s).pending.length ≤ 1 ∧
        ∀ t ∈ (evs'.foldl supStep s).pending,
          (evs'.foldl supStep s).reconnectTimeout = some t.1 ∧ t.2 = 60000 := by
    intro evs'
    induction evs' with
    | nil => intro s h1 h2; exact ⟨h1, h2⟩
    | cons e rest ih =>
      intro s h1 h2
      have h := supStep_inv h1 h2 e
      exact ih (supStep s e) h.1 h.2
  have h := hgen evs supInit (by simp [supInit]) (by simp [supInit])
  exact ⟨h.1, fun t ht => (h.2 t ht).2⟩

/-- C8 (witness): the claim theorem at a concrete run of three
consecutive failed attempts, with the timer shown outstanding. -/
theorem c8_single_reconnect_timer_witness :
    (2, 60000) ∈ (supRun [.schedule, .schedule, .schedule]).pending ∧
    (supRun [.schedule, .schedule, .schedule]).pending.length ≤ 1 ∧
    (2, 60000).2 = 60000 := by
  have h := c8_single_reconnect_timer [.schedule, .schedule, .schedule]
  have hm : (2, 60000) ∈ (supRun [.schedule, .schedule, .schedule]).pending := by
    decide
  exact ⟨hm, h.1, h.2 _ hm⟩

/-- C9: while the session is already authenticated — the `GET /` probe
answers 200 — each `ensureAuth` call performs exactly one probe, issues
no login request, and returns `true` (leaving the cookie cache
unchanged, so repeated calls behave identically). -/
theorem c9_ensureAuth_idempotent (s : ClientState) (l : LoginOutcome)
    (r : HttpResponse) (h : r.status = 200) :
    ensureAuthRun s (.delivered r) l = (⟨true, s.sessionCookie⟩, true, 1, 0) := by
  simp [ensureAuthRun, checkAuthStep, h]

/-- C9 (witness): the claim theorem at a concrete authenticated
session. -/
theorem c9_ensureAuth_idempotent_witness :
    ensureAuthRun ⟨false, some "c=ABC123"⟩ (.delivered ⟨200, none, [], "<html>"⟩)
      .netErr = (⟨true, some "c=ABC123"⟩, true, 1, 0) :=
  c9_ensureAuth_idempotent ⟨false, some "c=ABC123"⟩ .netErr
    ⟨200, none, [], "<html>"⟩ rfl

/-- C10: `setSensitivity` and `setEjectionForce` reject every value
outside `[0, 100]` locally — returning `false` with zero requests issued
— while every in-range value leads to exactly one request to the
device. -/
theorem c10_range_guard (v : Int) (postS postF : PostOutcome) :
    ((v < 0 ∨ 100 < v) →
      setSensitivityRun v postS = (false, 0) ∧
      setEjectionForceRun v postF = (false, 0)) ∧
    (0 ≤ v → v ≤ 100 →
      (setSensitivityRun v postS).2 = 1 ∧ (setEjectionForceRun v postF).2 = 1) := by
  constructor
  · intro h
    have hc : v < 0 ∨ v > 100 := h
    constructor
    · simp only [setSensitivityRun, if_pos hc]
    · simp only [setEjectionForceRun, if_pos hc]
  · intro h1 h2
    have hc : ¬(v < 0 ∨ v > 100) := by omega
    constructor
    · simp only [setSensitivityRun, if_neg hc]
      cases postS <;> rfl
    · simp only [setEjectionForceRun, if_neg hc]
      cases postF <;> rfl

/-- C10 (witness): the claim theorem at concrete out-of-range and
in-range values. -/
theorem c10_range_guard_witness :
    setSensitivityRun 150 (.delivered 200) = (false, 0) ∧
    setEjectionForceRun (-3) .failed = (false, 0) ∧
    (setSensitivityRun 50 (.delivered 200)).2 = 1 :=
  ⟨((c10_range_guard 150 (.delivered 200) (.delivered 200)).1 (by decide)).1,
    ((c10_range_guard (-3) .failed .failed).1 (by decide)).2,
    ((c10_range_guard 50 (.delivered 200) (.delivered 200)).2 (by decide) (by decide)).1⟩
